import Mathlib

/-!
Verification of the wildfire-tracking core: a shallow embedding of the
great-circle distance evaluator, the record filter, the session state, the
fetch-with-retry task, and the periodic memory-ceiling check, translated
from `Main_Project_File.py` and `commented.py`. Floating-point values are
modelled as real numbers; a pandas cell that may be missing (NaN) or hold a
non-numeric string is modelled by the `Cell` type, and a raised Python
exception by `Except.error`.
-/

/-- `math.atan2 y x` on real arguments (the standard two-argument
arctangent, matching Python's definition branch by branch). -/
noncomputable def atan2 (y x : ℝ) : ℝ :=
  if 0 < x then Real.arctan (y / x)
  else if x < 0 then
    (if 0 ≤ y then Real.arctan (y / x) + Real.pi else Real.arctan (y / x) - Real.pi)
  else
    (if 0 < y then Real.pi / 2 else if y < 0 then -(Real.pi / 2) else 0)

/-- `math.radians`: degrees-to-radians conversion used by `haversine`. -/
noncomputable def radians (x : ℝ) : ℝ := x * (Real.pi / 180)

/-- `R = 6371`: the mean Earth radius in kilometers (module constant). -/
noncomputable def R : ℝ := 6371

/-- The `haversine` function of both source files: converts the four
coordinates from degrees to radians and returns `R * c` with
`a = sin^2(dlat/2) + cos lat1 * cos lat2 * sin^2(dlon/2)` and
`c = 2 * atan2 (sqrt a) (sqrt (1 - a))`. -/
noncomputable def haversine (lat1 lon1 lat2 lon2 : ℝ) : ℝ :=
  let lat1r := radians lat1
  let lon1r := radians lon1
  let lat2r := radians lat2
  let lon2r := radians lon2
  let dlat := lat2r - lat1r
  let dlon := lon2r - lon1r
  let a := Real.sin (dlat / 2) ^ 2 +
    Real.cos lat1r * Real.cos lat2r * Real.sin (dlon / 2) ^ 2
  let c := 2 * atan2 (Real.sqrt a) (Real.sqrt (1 - a))
  R * c

/-- A pandas cell holding a coordinate: a finite numeric value, a missing
value (NaN), or a non-numeric string entry (object dtype). -/
inductive Cell where
  | num (x : ℝ)
  | nan
  | str (s : String)

/-- `true` iff the cell holds a finite numeric value. -/
def Cell.isNum : Cell → Bool
  | .num _ => true
  | _ => false

/-- One row of the hotspot dataset: `latitude`, `longitude`, `acq_date`,
plus any further columns passed through unmodified. Equality is by value. -/
structure Record where
  latitude : Cell
  longitude : Cell
  acq_date : String
  extra : List (String × String)

/-- The mutable fields of the `WildfireTracker` session read or written by
the operations under verification: `self.user_location`, `self.radius_km`,
`self.loaded_data`, and the status-label text. -/
structure TrackerState where
  user_location : ℝ × ℝ
  radius_km : ℤ
  loaded_data : Option (List Record)
  status_text : String

/-- The state established by `WildfireTracker.__init__`: location `(0, 0)`
(the "unset" sentinel), radius 100 km, no loaded dataset. -/
def initState : TrackerState :=
  { user_location := (0, 0)
    radius_km := 100
    loaded_data := none
    status_text := "Detecting your current location..." }

lemma atan2_zero_one : atan2 0 1 = 0 := by
  simp [atan2]

lemma radians_zero : radians 0 = 0 := by
  simp [radians]

lemma haversine_self (lat lon : ℝ) : haversine lat lon lat lon = 0 := by
  simp [haversine, atan2_zero_one]

lemma sin_sq_sub_half (u v : ℝ) :
    Real.sin ((u - v) / 2) ^ 2 = Real.sin ((v - u) / 2) ^ 2 := by
  rw [show (u - v) / 2 = -((v - u) / 2) by ring, Real.sin_neg]
  ring

lemma haversine_comm (lat1 lon1 lat2 lon2 : ℝ) :
    haversine lat1 lon1 lat2 lon2 = haversine lat2 lon2 lat1 lon1 := by
  simp only [haversine]
  rw [sin_sq_sub_half (radians lat2) (radians lat1),
    sin_sq_sub_half (radians lon2) (radians lon1),
    mul_comm (Real.cos (radians lat1)) (Real.cos (radians lat2))]

/-- C6: the distance evaluator follows the haversine formula with Earth
radius `R = 6371`; consequently identical points are at distance 0 and the
distance is symmetric in its two points. -/
theorem c6_haversine_props :
    (∀ lat lon : ℝ, haversine lat lon lat lon = 0) ∧
    (∀ lat1 lon1 lat2 lon2 : ℝ,
      haversine lat1 lon1 lat2 lon2 = haversine lat2 lon2 lat1 lon1) ∧
    R = 6371 :=
  ⟨haversine_self, haversine_comm, rfl⟩

section EquatorDistances

/-- Along the equator the haversine distance for a longitude offset
`x ∈ [0, 180)` degrees is exactly `R * radians x`. -/
lemma haversine_equator (lon x : ℝ) (hx0 : 0 ≤ x) (hx1 : x < 180) :
    haversine 0 lon 0 (lon + x) = R * radians x := by
  have hpi := Real.pi_pos
  have ht0 : 0 ≤ radians x / 2 := by
    unfold radians; positivity
  have ht1 : radians x / 2 < Real.pi / 2 := by
    unfold radians
    nlinarith [mul_pos (sub_pos.mpr hx1) hpi]
  set t := radians x / 2 with ht
  have hsin : 0 ≤ Real.sin t :=
    Real.sin_nonneg_of_nonneg_of_le_pi ht0 (by linarith)
  have hcos : 0 < Real.cos t :=
    Real.cos_pos_of_mem_Ioo ⟨by linarith, ht1⟩
  have hdlon : radians (lon + x) - radians lon = 2 * t := by
    rw [ht]; unfold radians; ring
  simp only [haversine, radians_zero, sub_self, zero_div, Real.sin_zero,
    Real.cos_zero, one_mul, zero_pow, ne_eq, OfNat.ofNat_ne_zero,
    not_false_eq_true, zero_add, hdlon]
  have h2t : 2 * t / 2 = t := by ring
  rw [h2t, Real.sqrt_sq hsin]
  have hone : 1 - Real.sin t ^ 2 = Real.cos t ^ 2 := by
    have := Real.sin_sq_add_cos_sq t
    linarith
  rw [hone, Real.sqrt_sq hcos.le]
  have hatan : atan2 (Real.sin t) (Real.cos t) = t := by
    rw [atan2, if_pos hcos, ← Real.tan_eq_sin_div_cos,
      Real.arctan_tan (by linarith) ht1]
  rw [hatan, ht]
  ring

/-- A point on the equator at longitude `10 + d * 180 / (6371 * pi)` lies at
haversine distance exactly `d` km from the reference point `(0, 10)`, for
`0 ≤ d < 19000`. -/
lemma haversine_equator_dist (d : ℝ) (h0 : 0 ≤ d) (h1 : d < 19000) :
    haversine 0 10 0 (10 + d * (180 / (6371 * Real.pi))) = d := by
  have hpi := Real.pi_gt_three
  have hpos : (0 : ℝ) < 6371 * Real.pi := by positivity
  have hx0 : 0 ≤ d * (180 / (6371 * Real.pi)) := by positivity
  have hx1 : d * (180 / (6371 * Real.pi)) < 180 := by
    rw [mul_div_assoc', div_lt_iff₀ hpos]
    nlinarith
  rw [haversine_equator 10 _ hx0 hx1]
  unfold R radians
  field_simp
  ring

end EquatorDistances

/-!
The record filter `WildfireTracker.filter_wildfires_within_radius` of
`Main_Project_File.py`. The loop body computes
`haversine(user_location[0], user_location[1], row['latitude'],
row['longitude'])` and appends the row when the distance is at most
`self.radius_km`. Applying `math.radians` to a string cell raises a
`TypeError` that the method does not catch (`Except.error ()`); a NaN cell
propagates NaN through the arithmetic, and `NaN <= radius` is `False`, so
the row is silently dropped.
-/

/-- Outcome of the loop body for one row: `.error ()` when `math.radians`
raises on a string cell, otherwise `.ok` of the comparison
`distance <= radius` (`false` whenever a coordinate is NaN). -/
noncomputable def keepRow (loc : ℝ × ℝ) (radius : ℝ) (r : Record) :
    Except Unit Bool :=
  match r.latitude, r.longitude with
  | Cell.str _, _ => Except.error ()
  | _, Cell.str _ => Except.error ()
  | Cell.nan, _ => Except.ok false
  | _, Cell.nan => Except.ok false
  | Cell.num la, Cell.num lo =>
      Except.ok (decide (haversine loc.1 loc.2 la lo ≤ radius))

/-- The row loop of `filter_wildfires_within_radius`: accumulates the rows
whose `keepRow` test is `true`, in order, propagating a raised exception. -/
noncomputable def filterRows (loc : ℝ × ℝ) (radius : ℝ) :
    List Record → Except Unit (List Record)
  | [] => Except.ok []
  | r :: rest =>
    match keepRow loc radius r, filterRows loc radius rest with
    | Except.error e, _ => Except.error e
    | Except.ok _, Except.error e => Except.error e
    | Except.ok b, Except.ok L => Except.ok (if b then r :: L else L)

/-- `WildfireTracker.filter_wildfires_within_radius` (`Main_Project_File.py`
lines 303-323): when `self.user_location == (0, 0)` it sets the status label
to "User location not set." and returns an empty frame; otherwise it runs
the row loop with the current location and radius, leaving the state as is. -/
noncomputable def filter_wildfires_within_radius (s : TrackerState)
    (data : List Record) : TrackerState × Except Unit (List Record) :=
  if s.user_location = (0, 0) then
    ({ s with status_text := "User location not set." }, Except.ok [])
  else
    (s, filterRows s.user_location (s.radius_km : ℝ) data)

/-- The Boolean row test in the exception-free case: numeric rows are kept
iff their haversine distance is within the radius, NaN rows are dropped. -/
noncomputable def keepRowB (loc : ℝ × ℝ) (radius : ℝ) (r : Record) : Bool :=
  match r.latitude, r.longitude with
  | Cell.num la, Cell.num lo =>
      decide (haversine loc.1 loc.2 la lo ≤ radius)
  | _, _ => false

/-- Distance of a row to the reference point, per the spec's words (defined
on rows with numeric coordinates; the junk value 0 is never used under the
validity hypotheses of the theorems below). -/
noncomputable def recDist (loc : ℝ × ℝ) (r : Record) : ℝ :=
  match r.latitude, r.longitude with
  | Cell.num la, Cell.num lo => haversine loc.1 loc.2 la lo
  | _, _ => 0

/-- Modelled from the spec's contract for the record filter (4.2): "the
sub-sequence of records whose distance (via 4.1) to the reference point is
<= radius, preserving original relative order". -/
noncomputable def specFilter (loc : ℝ × ℝ) (radius : ℝ)
    (data : List Record) : List Record :=
  data.filter (fun r => decide (recDist loc r ≤ radius))

lemma keepRow_eq_keepRowB (loc : ℝ × ℝ) (radius : ℝ) (r : Record)
    (h1 : ∀ a, r.latitude ≠ Cell.str a) (h2 : ∀ a, r.longitude ≠ Cell.str a) :
    keepRow loc radius r = Except.ok (keepRowB loc radius r) := by
  rcases r with ⟨la, lo, date, extra⟩
  cases la <;> cases lo <;> simp_all [keepRow, keepRowB]

lemma keepRowB_eq_recDist (loc : ℝ × ℝ) (radius : ℝ) (r : Record)
    (hla : r.latitude.isNum = true) (hlo : r.longitude.isNum = true) :
    keepRowB loc radius r = decide (recDist loc r ≤ radius) := by
  rcases r with ⟨la, lo, date, extra⟩
  cases la <;> cases lo <;> simp_all [Cell.isNum, keepRowB, recDist]

lemma filterRows_no_str (loc : ℝ × ℝ) (radius : ℝ) (data : List Record)
    (h : ∀ r ∈ data, (∀ a, r.latitude ≠ Cell.str a) ∧
      (∀ a, r.longitude ≠ Cell.str a)) :
    filterRows loc radius data =
      Except.ok (data.filter (keepRowB loc radius)) := by
  induction data with
  | nil => simp [filterRows]
  | cons r rest ih =>
    have hr := h r (List.mem_cons_self r rest)
    have hrest := ih (fun x hx => h x (List.mem_cons_of_mem r hx))
    rw [filterRows, keepRow_eq_keepRowB loc radius r hr.1 hr.2, hrest,
      List.filter_cons]

lemma filterRows_ok_mem (loc : ℝ × ℝ) (radius : ℝ) :
    ∀ (data L : List Record), filterRows loc radius data = Except.ok L →
      ∀ r ∈ L, keepRow loc radius r = Except.ok true := by
  intro data
  induction data with
  | nil =>
    intro L h r hr
    simp only [filterRows, Except.ok.injEq] at h
    subst h
    cases hr
  | cons a rest ih =>
    intro L h r hr
    rw [filterRows] at h
    cases hk : keepRow loc radius a with
    | error e => rw [hk] at h; simp at h
    | ok b =>
      rw [hk] at h
      cases hrec : filterRows loc radius rest with
      | error e => rw [hrec] at h; simp at h
      | ok L' =>
        rw [hrec] at h
        simp only [Except.ok.injEq] at h
        subst h
        cases b with
        | true =>
          simp only [if_true] at hr
          rcases List.mem_cons.mp hr with rfl | hr'
          · exact hk
          · exact ih L' hrec r hr'
        | false =>
          simp at hr
          exact ih L' hrec r hr

lemma filterRows_all_true (loc : ℝ × ℝ) (radius : ℝ) (L : List Record)
    (h : ∀ r ∈ L, keepRow loc radius r = Except.ok true) :
    filterRows loc radius L = Except.ok L := by
  induction L with
  | nil => simp [filterRows]
  | cons a rest ih =>
    rw [filterRows, h a (List.mem_cons_self a rest),
      ih (fun x hx => h x (List.mem_cons_of_mem a hx))]
    simp

lemma filterRows_sublist (loc : ℝ × ℝ) (radius : ℝ) :
    ∀ (data L : List Record), filterRows loc radius data = Except.ok L →
      L.Sublist data := by
  intro data
  induction data with
  | nil =>
    intro L h
    simp only [filterRows, Except.ok.injEq] at h
    subst h
    exact List.Sublist.refl []
  | cons a rest ih =>
    intro L h
    rw [filterRows] at h
    cases hk : keepRow loc radius a with
    | error e => rw [hk] at h; simp at h
    | ok b =>
      rw [hk] at h
      cases hrec : filterRows loc radius rest with
      | error e => rw [hrec] at h; simp at h
      | ok L' =>
        rw [hrec] at h
        simp only [Except.ok.injEq] at h
        subst h
        cases b with
        | true => exact (ih L' hrec).cons₂ a
        | false => exact (ih L' hrec).cons a

/-- C1: away from the sentinel, for a positive radius and a dataset of
records with numeric coordinates, the filter returns exactly the
sub-sequence of records whose haversine distance to the reference point is
within the radius, in the original relative order. -/
theorem c1_filter_in_radius (s : TrackerState) (data : List Record)
    (hloc : s.user_location ≠ (0, 0)) (hrad : 0 < s.radius_km)
    (hval : ∀ r ∈ data, r.latitude.isNum = true ∧ r.longitude.isNum = true) :
    (filter_wildfires_within_radius s data).2
      = Except.ok (specFilter s.user_location (s.radius_km : ℝ) data) ∧
    (specFilter s.user_location (s.radius_km : ℝ) data).Sublist data := by
  refine ⟨?_, List.filter_sublist data⟩
  have hnostr : ∀ r ∈ data, (∀ a, r.latitude ≠ Cell.str a) ∧
      (∀ a, r.longitude ≠ Cell.str a) := by
    intro r hr
    obtain ⟨h1, h2⟩ := hval r hr
    constructor <;> intro a ha
    · rw [ha] at h1; simp [Cell.isNum] at h1
    · rw [ha] at h2; simp [Cell.isNum] at h2
  have hbranch : filter_wildfires_within_radius s data
      = (s, filterRows s.user_location (s.radius_km : ℝ) data) := by
    rw [filter_wildfires_within_radius, if_neg hloc]
  rw [hbranch, filterRows_no_str _ _ data hnostr, specFilter]
  exact congrArg Except.ok (List.filter_congr
    (fun r hr => keepRowB_eq_recDist s.user_location _ r
      (hval r hr).1 (hval r hr).2))

/-- C2: with the reference point at the sentinel `(0, 0)` the filter
returns an empty result and reports "User location not set.". -/
theorem c2_sentinel_empty (s : TrackerState) (data : List Record)
    (h : s.user_location = (0, 0)) :
    (filter_wildfires_within_radius s data).2 = Except.ok [] ∧
    (filter_wildfires_within_radius s data).1.status_text
      = "User location not set." := by
  rw [filter_wildfires_within_radius, if_pos h]
  exact ⟨rfl, rfl⟩

/-- C10: away from the sentinel, the filter leaves the whole session state
(reference location, radius, loaded dataset, status) unchanged and returns
a sub-list built from the unmodified input records. -/
theorem c10_filter_frame (s : TrackerState) (data : List Record)
    (hloc : s.user_location ≠ (0, 0)) :
    (filter_wildfires_within_radius s data).1 = s ∧
    ∀ L, (filter_wildfires_within_radius s data).2 = Except.ok L →
      L.Sublist data := by
  rw [filter_wildfires_within_radius, if_neg hloc]
  exact ⟨rfl, fun L h => filterRows_sublist _ _ data L h⟩

/-- C8: refiltering an already-filtered result with the same reference
point and radius returns it unchanged. -/
theorem c8_filter_idempotent (s : TrackerState) (data L : List Record)
    (h : (filter_wildfires_within_radius s data).2 = Except.ok L) :
    (filter_wildfires_within_radius s L).2 = Except.ok L := by
  by_cases hs : s.user_location = (0, 0)
  · rw [filter_wildfires_within_radius, if_pos hs] at h ⊢
    have h' : Except.ok ([] : List Record) = Except.ok L := h
    injection h' with h''
  · rw [filter_wildfires_within_radius, if_neg hs] at h ⊢
    have h' : filterRows s.user_location (s.radius_km : ℝ) data
        = Except.ok L := h
    exact filterRows_all_true _ _ L (filterRows_ok_mem _ _ data L h')

/-- C7 (amended): with no non-numeric (string) coordinate in the dataset,
the filter succeeds, skipping per-record exactly the rows whose test is
false — in particular every row with a missing (NaN) coordinate — and every
returned record has numeric coordinates. -/
theorem c7_missing_skipped (s : TrackerState) (data : List Record)
    (hloc : s.user_location ≠ (0, 0))
    (hstr : ∀ r ∈ data, (∀ a, r.latitude ≠ Cell.str a) ∧
      (∀ a, r.longitude ≠ Cell.str a)) :
    (filter_wildfires_within_radius s data).2
      = Except.ok (data.filter (keepRowB s.user_location (s.radius_km : ℝ))) ∧
    ∀ r ∈ data.filter (keepRowB s.user_location (s.radius_km : ℝ)),
      r.latitude.isNum = true ∧ r.longitude.isNum = true := by
  constructor
  · rw [filter_wildfires_within_radius, if_neg hloc]
    exact filterRows_no_str _ _ data hstr
  · intro r hr
    have hkeep := List.of_mem_filter hr
    rcases r with ⟨la, lo, date, extra⟩
    cases la <;> cases lo <;>
      first
        | exact ⟨rfl, rfl⟩
        | simp [keepRowB] at hkeep

/-!
Concrete states and records used by the witnesses below. The reference
point `(0, 10)` sits on the equator; `recW d` is a record on the equator at
haversine distance exactly `d` km from it (for `0 ≤ d < 19000`).
-/

/-- A session whose reference point `(0, 10)` is not the sentinel and whose
radius is the default 100 km. -/
def sW : TrackerState :=
  { user_location := (0, 10)
    radius_km := 100
    loaded_data := none
    status_text := "" }

lemma sW_ne : sW.user_location ≠ ((0 : ℝ), (0 : ℝ)) := by
  norm_num [sW, Prod.ext_iff]

/-- A record with plain numeric coordinates. -/
def recAny : Record :=
  { latitude := Cell.num 1
    longitude := Cell.num 1
    acq_date := "2024-01-01"
    extra := [] }

/-- A record whose latitude is missing (NaN). -/
def recNaN : Record :=
  { latitude := Cell.nan
    longitude := Cell.num 20
    acq_date := "2024-01-01"
    extra := [] }

/-- A record whose latitude cell holds a non-numeric string. -/
def recBad : Record :=
  { latitude := Cell.str "abc"
    longitude := Cell.num 1
    acq_date := "2024-01-01"
    extra := [] }

/-- An equatorial record at haversine distance `d` km from `(0, 10)`. -/
noncomputable def recW (d : ℝ) : Record :=
  { latitude := Cell.num 0
    longitude := Cell.num (10 + d * (180 / (6371 * Real.pi)))
    acq_date := "2024-01-01"
    extra := [] }

lemma recDist_recW (d : ℝ) (h0 : 0 ≤ d) (h1 : d < 19000) :
    recDist sW.user_location (recW d) = d := by
  show recDist ((0 : ℝ), (10 : ℝ)) (recW d) = d
  rw [recDist, recW]
  exact haversine_equator_dist d h0 h1

lemma keepRowB_recW (d : ℝ) (h0 : 0 ≤ d) (h1 : d < 19000) :
    keepRowB sW.user_location (sW.radius_km : ℝ) (recW d)
      = decide (d ≤ (100 : ℝ)) := by
  have hred : keepRowB sW.user_location (sW.radius_km : ℝ) (recW d)
      = decide (haversine 0 10 0 (10 + d * (180 / (6371 * Real.pi)))
          ≤ (((100 : ℤ)) : ℝ)) := rfl
  rw [hred, decide_eq_decide, haversine_equator_dist d h0 h1]
  norm_num

/-- Witness for C1: from the reference point `(0, 10)` with radius 100 km,
a dataset of records at distances 5, 50 and 150 km filters to exactly the
first two records, in order. -/
theorem c1_filter_in_radius_witness :
    sW.user_location ≠ ((0 : ℝ), (0 : ℝ)) ∧
    (filter_wildfires_within_radius sW [recW 5, recW 50, recW 150]).2
      = Except.ok [recW 5, recW 50] := by
  refine ⟨sW_ne, ?_⟩
  have hval : ∀ r ∈ [recW 5, recW 50, recW 150],
      r.latitude.isNum = true ∧ r.longitude.isNum = true := by
    intro r hr
    simp only [List.mem_cons, List.not_mem_nil, or_false] at hr
    rcases hr with rfl | rfl | rfl <;> exact ⟨rfl, rfl⟩
  have h := (c1_filter_in_radius sW [recW 5, recW 50, recW 150] sW_ne
    (by norm_num [sW]) hval).1
  rw [h, specFilter]
  have b5 : decide (recDist sW.user_location (recW 5) ≤ (sW.radius_km : ℝ))
      = true := by
    rw [decide_eq_true_eq, recDist_recW 5 (by norm_num) (by norm_num)]
    show (5 : ℝ) ≤ (((100 : ℤ)) : ℝ)
    norm_num
  have b50 : decide (recDist sW.user_location (recW 50) ≤ (sW.radius_km : ℝ))
      = true := by
    rw [decide_eq_true_eq, recDist_recW 50 (by norm_num) (by norm_num)]
    show (50 : ℝ) ≤ (((100 : ℤ)) : ℝ)
    norm_num
  have b150 : decide (recDist sW.user_location (recW 150) ≤ (sW.radius_km : ℝ))
      = false := by
    rw [decide_eq_false_iff_not, recDist_recW 150 (by norm_num) (by norm_num)]
    show ¬ (150 : ℝ) ≤ (((100 : ℤ)) : ℝ)
    norm_num
  simp [List.filter_cons, List.filter_nil, b5, b50, b150]

/-- Witness for C2: in the initial state (sentinel location) the filter of
a non-empty dataset returns the empty sequence and reports the condition. -/
theorem c2_sentinel_empty_witness :
    initState.user_location = ((0 : ℝ), (0 : ℝ)) ∧
    (filter_wildfires_within_radius initState [recAny]).2 = Except.ok [] ∧
    (filter_wildfires_within_radius initState [recAny]).1.status_text
      = "User location not set." :=
  ⟨rfl, (c2_sentinel_empty initState [recAny] rfl).1,
    (c2_sentinel_empty initState [recAny] rfl).2⟩

/-- Witness for C10: filtering from `(0, 10)` leaves the session state
untouched. -/
theorem c10_filter_frame_witness :
    sW.user_location ≠ ((0 : ℝ), (0 : ℝ)) ∧
    (filter_wildfires_within_radius sW [recAny]).1 = sW :=
  ⟨sW_ne, (c10_filter_frame sW [recAny] sW_ne).1⟩

/-- Witness for C8: a dataset whose single record has a missing coordinate
filters to `[]`, and refiltering `[]` yields `[]` again. -/
theorem c8_filter_idempotent_witness :
    (filter_wildfires_within_radius sW [recNaN]).2 = Except.ok [] ∧
    (filter_wildfires_within_radius sW []).2 = Except.ok [] := by
  have h1 : (filter_wildfires_within_radius sW [recNaN]).2 = Except.ok [] := by
    rw [filter_wildfires_within_radius, if_neg sW_ne]
    simp [filterRows, keepRow, recNaN]
  exact ⟨h1, c8_filter_idempotent sW [recNaN] [] h1⟩

/-- Counterexample to C7 as stated: a record whose latitude cell holds the
non-numeric string "abc" does not get skipped per-record — `math.radians`
raises and the whole filtering operation fails. -/
theorem c7_nonnumeric_counterexample :
    (filter_wildfires_within_radius sW [recBad]).2 = Except.error () := by
  rw [filter_wildfires_within_radius, if_neg sW_ne]
  simp [filterRows, keepRow, recBad]

/-- Witness for the amended C7: a dataset holding a NaN-coordinate record
and an in-radius record filters to exactly the in-radius record. -/
theorem c7_missing_skipped_witness :
    sW.user_location ≠ ((0 : ℝ), (0 : ℝ)) ∧
    (filter_wildfires_within_radius sW [recNaN, recW 5]).2
      = Except.ok [recW 5] := by
  refine ⟨sW_ne, ?_⟩
  have hstr : ∀ r ∈ [recNaN, recW 5], (∀ a, r.latitude ≠ Cell.str a) ∧
      (∀ a, r.longitude ≠ Cell.str a) := by
    intro r hr
    simp only [List.mem_cons, List.not_mem_nil, or_false] at hr
    rcases hr with rfl | rfl
    · exact ⟨fun a h => by simp [recNaN] at h, fun a h => by simp [recNaN] at h⟩
    · exact ⟨fun a h => by simp [recW] at h, fun a h => by simp [recW] at h⟩
  have h := (c7_missing_skipped sW [recNaN, recW 5] sW_ne hstr).1
  rw [h]
  have b5 : keepRowB sW.user_location (sW.radius_km : ℝ) (recW 5) = true := by
    rw [keepRowB_recW 5 (by norm_num) (by norm_num), decide_eq_true_eq]
    norm_num
  have bn : keepRowB sW.user_location (sW.radius_km : ℝ) recNaN = false := by
    rfl
  simp [List.filter_cons, List.filter_nil, b5, bn]

/-!
Session mutations. `update_radius` is the nested validation handler of
`WildfireTracker.set_radius` (`Main_Project_File.py` lines 141-154): the
parsed integer is rejected with the "Invalid input" message when it is not
positive, otherwise `self.radius_km` is updated and the status reports the
new value. `Reachable` enumerates the session states produced by the
modelled mutations starting from `__init__`.
-/

/-- The `update_radius` handler applied to a successfully parsed integer
input. -/
def update_radius (s : TrackerState) (new_radius : ℤ) : TrackerState :=
  if new_radius ≤ 0 then
    { s with status_text := "Invalid input: Radius must be a positive integer." }
  else
    { s with radius_km := new_radius,
             status_text := "Tracking radius updated to "
               ++ toString new_radius ++ " km." }

/-- Session states reachable from `__init__` through the modelled
mutations: radius updates, location updates (geocoding or IP detection),
CSV loads, status messages, and filter runs. -/
inductive Reachable : TrackerState → Prop where
  | init : Reachable initState
  | radius_update (s : TrackerState) (n : ℤ) :
      Reachable s → Reachable (update_radius s n)
  | location_update (s : TrackerState) (p : ℝ × ℝ) (msg : String) :
      Reachable s → Reachable { s with user_location := p, status_text := msg }
  | data_load (s : TrackerState) (d : List Record) :
      Reachable s → Reachable { s with loaded_data := some d }
  | status_update (s : TrackerState) (msg : String) :
      Reachable s → Reachable { s with status_text := msg }
  | filter_run (s : TrackerState) (data : List Record) :
      Reachable s → Reachable (filter_wildfires_within_radius s data).1

lemma filter_preserves_radius (s : TrackerState) (data : List Record) :
    (filter_wildfires_within_radius s data).1.radius_km = s.radius_km := by
  rw [filter_wildfires_within_radius]
  split <;> rfl

/-- C5: a non-positive radius input is rejected with the invalid-radius
message and changes nothing else (in particular the prior radius is kept),
and every reachable session state has a positive radius. -/
theorem c5_set_radius_invalid :
    (∀ (s : TrackerState) (n : ℤ), n ≤ 0 →
      (update_radius s n).radius_km = s.radius_km ∧
      (update_radius s n).user_location = s.user_location ∧
      (update_radius s n).loaded_data = s.loaded_data ∧
      (update_radius s n).status_text
        = "Invalid input: Radius must be a positive integer.") ∧
    (∀ s : TrackerState, Reachable s → 0 < s.radius_km) := by
  constructor
  · intro s n hn
    rw [update_radius, if_pos hn]
    exact ⟨rfl, rfl, rfl, rfl⟩
  · intro s hs
    induction hs with
    | init => norm_num [initState]
    | radius_update s n hs ih =>
      rw [update_radius]
      split
      · simpa using ih
      · next h => simpa using by omega
    | location_update s p msg hs ih => simpa using ih
    | data_load s d hs ih => simpa using ih
    | status_update s msg hs ih => simpa using ih
    | filter_run s data hs ih =>
      rw [filter_preserves_radius]
      exact ih

/-- Witness for C5: from the initial state, inputs `-1` and `0` keep the
radius at 100, and the initial state satisfies the radius invariant. -/
theorem c5_set_radius_invalid_witness :
    (update_radius initState (-1)).radius_km = 100 ∧
    (update_radius initState 0).radius_km = 100 ∧
    0 < initState.radius_km :=
  ⟨(c5_set_radius_invalid.1 initState (-1) (by norm_num)).1.trans rfl,
    (c5_set_radius_invalid.1 initState 0 (by norm_num)).1.trans rfl,
    c5_set_radius_invalid.2 initState Reachable.init⟩

/-!
The fetch-with-retry task `WildfireTracker.fetch_single_data_task` of
`commented.py` (lines 226-248). One attempt is a GET (timeout 10) followed
by `raise_for_status` and CSV parsing; the injected transport reports, per
attempt index, either a parsed dataset, a timeout (`requests` Timeout), or
any other non-timeout failure (HTTP error, connection refused, parse or
schema failure). The loop runs `for attempt in range(3)`: a timeout retries
unless it is the last attempt, where it is re-raised; any other exception
is printed and the loop `break`s, so the function falls through and
returns `None` — no distinct error value reaches the caller.
-/

/-- Kind of a non-timeout failure of one attempt (the spec's taxonomy). -/
inductive FailKind where
  | schema
  | transport

/-- Result of a single transport attempt. -/
inductive TResult where
  | ok (d : List Record)
  | timeout
  | failure (k : FailKind)

/-- Error values the task could surface by raising: the re-raised timeout,
and the spec's claimed distinct schema / transport errors (which the code
never raises). -/
inductive FetchError where
  | timeout
  | schema
  | transportErr
  deriving DecidableEq

/-- The `for attempt in range(3)` loop of `fetch_single_data_task`,
started at `attempt`. Returns the dataset and the number of attempts made,
`none` for the implicit `None` after a `break` or loop exhaustion, or a
raised timeout. -/
def fetchLoop (transport : ℕ → TResult) (attempt : ℕ) :
    Except FetchError (Option (List Record) × ℕ) :=
  if h : attempt < 3 then
    match transport attempt with
    | TResult.ok d => Except.ok (some d, attempt + 1)
    | TResult.failure _ => Except.ok (none, attempt + 1)
    | TResult.timeout =>
        if attempt < 2 then fetchLoop transport (attempt + 1)
        else Except.error FetchError.timeout
  else Except.ok (none, attempt)
termination_by 3 - attempt
decreasing_by omega

/-- `fetch_single_data_task` over an injected transport. -/
def fetch_single_data_task (transport : ℕ → TResult) :
    Except FetchError (Option (List Record) × ℕ) :=
  fetchLoop transport 0

lemma fetchLoop_ok (t : ℕ → TResult) (a : ℕ) (d : List Record)
    (ha : a < 3) (h : t a = TResult.ok d) :
    fetchLoop t a = Except.ok (some d, a + 1) := by
  unfold fetchLoop
  rw [dif_pos ha, h]

lemma fetchLoop_failure (t : ℕ → TResult) (a : ℕ) (k : FailKind)
    (ha : a < 3) (h : t a = TResult.failure k) :
    fetchLoop t a = Except.ok (none, a + 1) := by
  unfold fetchLoop
  rw [dif_pos ha, h]

lemma fetchLoop_timeout_retry (t : ℕ → TResult) (a : ℕ)
    (ha : a < 2) (h : t a = TResult.timeout) :
    fetchLoop t a = fetchLoop t (a + 1) := by
  conv_lhs => unfold fetchLoop
  rw [dif_pos (show a < 3 by omega), h]
  show (if a < 2 then fetchLoop t (a + 1)
    else Except.error FetchError.timeout) = fetchLoop t (a + 1)
  exact if_pos ha

lemma fetchLoop_timeout_last (t : ℕ → TResult)
    (h : t 2 = TResult.timeout) :
    fetchLoop t 2 = Except.error FetchError.timeout := by
  unfold fetchLoop
  rw [dif_pos (by norm_num), h, if_neg (by norm_num)]

lemma fetchLoop_le_aux (t : ℕ → TResult) :
    ∀ (f a : ℕ), 3 - a ≤ f → a ≤ 3 →
      ∀ (d : Option (List Record)) (n : ℕ),
        fetchLoop t a = Except.ok (d, n) → n ≤ 3 := by
  intro f
  induction f with
  | zero =>
    intro a h3 ha d n h
    have ha3 : a = 3 := by omega
    subst ha3
    unfold fetchLoop at h
    rw [dif_neg (by norm_num)] at h
    simp only [Except.ok.injEq, Prod.mk.injEq] at h
    omega
  | succ f ih =>
    intro a h3 ha d n h
    by_cases hlt : a < 3
    · unfold fetchLoop at h
      rw [dif_pos hlt] at h
      rcases he : t a with dd | _ | k <;> rw [he] at h
      · simp only [Except.ok.injEq, Prod.mk.injEq] at h
        omega
      · by_cases h2 : a < 2
        · rw [if_pos h2] at h
          exact ih (a + 1) (by omega) (by omega) d n h
        · rw [if_neg h2] at h
          simp at h
      · simp only [Except.ok.injEq, Prod.mk.injEq] at h
        omega
    · unfold fetchLoop at h
      rw [dif_neg hlt] at h
      simp only [Except.ok.injEq, Prod.mk.injEq] at h
      omega

/-- C3: a transport timing out on the first two attempts and succeeding on
the third yields that dataset after exactly 3 attempts; timing out on all
three attempts re-raises the timeout to the caller; and a successful task
never makes more than 3 attempts. -/
theorem c3_fetch_retry_timeout :
    (∀ (t : ℕ → TResult) (d : List Record),
      t 0 = TResult.timeout → t 1 = TResult.timeout → t 2 = TResult.ok d →
      fetch_single_data_task t = Except.ok (some d, 3)) ∧
    (∀ t : ℕ → TResult,
      t 0 = TResult.timeout → t 1 = TResult.timeout →
      t 2 = TResult.timeout →
      fetch_single_data_task t = Except.error FetchError.timeout) ∧
    (∀ (t : ℕ → TResult) (d : Option (List Record)) (n : ℕ),
      fetch_single_data_task t = Except.ok (d, n) → n ≤ 3) := by
  refine ⟨?_, ?_, ?_⟩
  · intro t d h0 h1 h2
    rw [fetch_single_data_task, fetchLoop_timeout_retry t 0 (by norm_num) h0,
      fetchLoop_timeout_retry t 1 (by norm_num) h1,
      fetchLoop_ok t 2 d (by norm_num) h2]
  · intro t h0 h1 h2
    rw [fetch_single_data_task, fetchLoop_timeout_retry t 0 (by norm_num) h0,
      fetchLoop_timeout_retry t 1 (by norm_num) h1,
      fetchLoop_timeout_last t h2]
  · intro t d n h
    exact fetchLoop_le_aux t 3 0 (by norm_num) (by norm_num) d n h

/-- Transport that times out twice, then succeeds. -/
def tTwoTimeouts : ℕ → TResult :=
  fun n => if n < 2 then TResult.timeout else TResult.ok [recAny]

/-- Transport that times out on every attempt. -/
def tAllTimeout : ℕ → TResult := fun _ => TResult.timeout

/-- Witness for C3: the two scenarios at concrete transports, plus the
attempt bound read off the successful run. -/
theorem c3_fetch_retry_timeout_witness :
    fetch_single_data_task tTwoTimeouts = Except.ok (some [recAny], 3) ∧
    fetch_single_data_task tAllTimeout = Except.error FetchError.timeout ∧
    (3 : ℕ) ≤ 3 := by
  have h1 := c3_fetch_retry_timeout.1 tTwoTimeouts [recAny] rfl rfl rfl
  exact ⟨h1, c3_fetch_retry_timeout.2.1 tAllTimeout rfl rfl rfl,
    c3_fetch_retry_timeout.2.2 tTwoTimeouts (some [recAny]) 3 h1⟩

/-- C4 (amended): any non-timeout failure ends the task after exactly 1
attempt with no retry, and the task returns no dataset and raises no error
value — the caller receives `None`, not a distinct schema/transport error. -/
theorem c4_nontimeout_no_retry (t : ℕ → TResult) (k : FailKind)
    (h : t 0 = TResult.failure k) :
    fetch_single_data_task t = Except.ok (none, 1) := by
  rw [fetch_single_data_task, fetchLoop_failure t 0 k (by norm_num) h]

/-- Transport whose first attempt fails with a schema mismatch. -/
def tSchema : ℕ → TResult := fun _ => TResult.failure FailKind.schema

/-- Counterexample to C4 as stated: on a schema failure at attempt 1 the
task does stop after 1 attempt, but it returns `None` rather than
surfacing the distinct schema error the claim promises. -/
theorem c4_nontimeout_counterexample :
    fetch_single_data_task tSchema = Except.ok (none, 1) ∧
    fetch_single_data_task tSchema ≠ Except.error FetchError.schema := by
  have h : fetch_single_data_task tSchema = Except.ok (none, 1) := by
    rw [fetch_single_data_task,
      fetchLoop_failure tSchema 0 FailKind.schema (by norm_num) rfl]
  refine ⟨h, ?_⟩
  rw [h]
  simp

/-- Witness for the amended C4 at the concrete schema-failing transport. -/
theorem c4_nontimeout_no_retry_witness :
    fetch_single_data_task tSchema = Except.ok (none, 1) :=
  c4_nontimeout_no_retry tSchema FailKind.schema rfl

/-!
The periodic memory monitor of `commented.py`: `check_memory_limit`
converts the process's resident set size to MB and calls `sys.exit(1)` when
it exceeds `MEMORY_LIMIT_MB = 3072`; `check_memory` runs it only while the
window still exists and reschedules itself one time unit later
(`root.after(1000, ...)`); closing the application cancels the pending
check. Time is modelled in scheduler ticks one time unit apart: `w t` is
whether the window still exists at tick `t` and `m t` the resident set
size in bytes observed at tick `t`.
-/

/-- `check_memory_limit`: `some 1` (exit status 1) when `rss` bytes exceed
the 3072 MB ceiling, `none` otherwise. -/
def check_memory_limit (rss : ℕ) : Option ℕ :=
  if 3072 < (rss : ℚ) / (1024 * 1024) then some 1 else none

/-- Effect of one scheduled `check_memory` callback. -/
inductive MemStep where
  | exit (code : ℕ)
  | scheduledNext
  | stopped
  deriving DecidableEq

/-- `WildfireTracker.check_memory`: if the window exists, run the limit
check (terminating the process on a breach) and schedule the next check one
time unit later; otherwise do nothing further. -/
def check_memory (winExists : Bool) (rss : ℕ) : MemStep :=
  if winExists then
    match check_memory_limit rss with
    | some code => MemStep.exit code
    | none => MemStep.scheduledNext
  else MemStep.stopped

/-- Observable outcome of the monitor after a bounded number of ticks. -/
inductive MemRun where
  | exited (tick code : ℕ)
  | stopped (tick : ℕ)
  | live (tick : ℕ)
  deriving DecidableEq

/-- The monitor's trace from tick `t` with the given fuel: each tick runs
`check_memory` and, while it keeps scheduling, moves to the next tick. -/
def runMemory (w : ℕ → Bool) (m : ℕ → ℕ) : ℕ → ℕ → MemRun
  | t, 0 => MemRun.live t
  | t, fuel + 1 =>
    match check_memory (w t) (m t) with
    | MemStep.exit c => MemRun.exited t c
    | MemStep.stopped => MemRun.stopped t
    | MemStep.scheduledNext => runMemory w m (t + 1) fuel

lemma runMemory_shift (w : ℕ → Bool) (m : ℕ → ℕ) :
    ∀ (k t fuel : ℕ),
      (∀ s, t ≤ s → s < t + k → w s = true ∧ check_memory_limit (m s) = none) →
      k ≤ fuel →
      runMemory w m t fuel = runMemory w m (t + k) (fuel - k) := by
  intro k
  induction k with
  | zero => intro t fuel _ _; simp
  | succ k ih =>
    intro t fuel h hk
    obtain ⟨fuel', rfl⟩ : ∃ f, fuel = f + 1 := ⟨fuel - 1, by omega⟩
    have ht := h t (le_refl t) (by omega)
    have hstep : runMemory w m t (fuel' + 1) = runMemory w m (t + 1) fuel' := by
      rw [runMemory, check_memory, ht.1, if_pos rfl, ht.2]
    rw [hstep, ih (t + 1) fuel'
      (fun s hs1 hs2 => h s (by omega) (by omega)) (by omega)]
    congr 1 <;> omega

/-- C9: while the window is open, `check_memory` observing resident memory
above the 3072 MB ceiling exits the process with the non-zero status 1;
along a run checked every time unit, the first breaching tick produces that
exit; and when the window closes the periodic check stops cleanly. -/
theorem c9_memory_monitor :
    (∀ rss : ℕ, 3072 < (rss : ℚ) / (1024 * 1024) →
      ∃ c, c ≠ 0 ∧ check_memory true rss = MemStep.exit c) ∧
    (∀ (w : ℕ → Bool) (m : ℕ → ℕ) (t fuel : ℕ),
      (∀ s, s ≤ t → w s = true) →
      (∀ s, s < t → ¬ 3072 < ((m s : ℚ)) / (1024 * 1024)) →
      3072 < ((m t : ℚ)) / (1024 * 1024) → t < fuel →
      runMemory w m 0 fuel = MemRun.exited t 1) ∧
    (∀ (w : ℕ → Bool) (m : ℕ → ℕ) (t fuel : ℕ),
      (∀ s, s < t → w s = true ∧ ¬ 3072 < ((m s : ℚ)) / (1024 * 1024)) →
      w t = false → t < fuel →
      runMemory w m 0 fuel = MemRun.stopped t) := by
  refine ⟨?_, ?_, ?_⟩
  · intro rss hrss
    refine ⟨1, one_ne_zero, ?_⟩
    rw [check_memory, if_pos rfl, check_memory_limit, if_pos hrss]
  · intro w m t fuel hw hm hbreach hfuel
    have hpre : ∀ s, 0 ≤ s → s < 0 + t →
        w s = true ∧ check_memory_limit (m s) = none := by
      intro s _ hs
      refine ⟨hw s (by omega), ?_⟩
      rw [check_memory_limit, if_neg (hm s (by omega))]
    rw [runMemory_shift w m t 0 fuel hpre (by omega)]
    obtain ⟨f, hf⟩ : ∃ f, fuel - t = f + 1 := ⟨fuel - t - 1, by omega⟩
    rw [hf, zero_add, runMemory, check_memory, hw t (le_refl t), if_pos rfl,
      check_memory_limit, if_pos hbreach]
  · intro w m t fuel hpre hclose hfuel
    have hpre' : ∀ s, 0 ≤ s → s < 0 + t →
        w s = true ∧ check_memory_limit (m s) = none := by
      intro s _ hs
      refine ⟨(hpre s (by omega)).1, ?_⟩
      rw [check_memory_limit, if_neg (hpre s (by omega)).2]
    rw [runMemory_shift w m t 0 fuel hpre' (by omega)]
    obtain ⟨f, hf⟩ : ∃ f, fuel - t = f + 1 := ⟨fuel - t - 1, by omega⟩
    rw [hf, zero_add, runMemory, check_memory, hclose]
    rfl

/-- Window that stays open forever. -/
def wOpen : ℕ → Bool := fun _ => true

/-- Window that closes at tick 2. -/
def wCloseAt2 : ℕ → Bool := fun n => decide (n < 2)

/-- Resident memory that stays at 0 bytes until tick 2, then jumps to
4 GiB (4096 MB, above the 3072 MB ceiling). -/
def mSpikeAt2 : ℕ → ℕ := fun n => if n < 2 then 0 else 4294967296

/-- Witness for C9: with the spiking memory trace the run exits with
status 1 at tick 2; with the closing window the run stops at tick 2. -/
theorem c9_memory_monitor_witness :
    runMemory wOpen mSpikeAt2 0 5 = MemRun.exited 2 1 ∧
    runMemory wCloseAt2 (fun _ => 0) 0 5 = MemRun.stopped 2 := by
  constructor
  · apply c9_memory_monitor.2.1 wOpen mSpikeAt2 2 5
    · intro s _
      rfl
    · intro s hs
      have h0 : mSpikeAt2 s = 0 := by simp [mSpikeAt2, hs]
      rw [h0]
      norm_num
    · show (3072 : ℚ) < ((mSpikeAt2 2 : ℚ)) / (1024 * 1024)
      norm_num [mSpikeAt2]
    · norm_num
  · apply c9_memory_monitor.2.2 wCloseAt2 (fun _ => 0) 2 5
    · intro s hs
      refine ⟨?_, by norm_num⟩
      simp [wCloseAt2]
      omega
    · rfl
    · norm_num
